import Mathlib

/-!
Verification of the session lifecycle and execution engine of the
go-python-executor repository (Go sources: internal/session/session.go,
internal/handler/execute.go, internal/models/payloads.go).

The Go code is shallowly embedded as pure Lean functions.  Filesystem
effects (MkdirAll, WriteFile, RemoveAll, Remove) act on an explicit `FS`
value; paths are modelled structurally as lists of components, with
`filepath.Join base name` becoming `base ++ [name]`.  Nondeterministic
inputs of the real system (the generated UUID, the wall clock, success of
filesystem calls, and the outcome of the spawned interpreter process) are
passed in as explicit parameters.  The external Python interpreter is
modelled at the granularity of the three phases of the composed script
(state reload, user code, snapshot write), executed in order; a kill
discards the effects of a reload or user-code phase it interrupts, while a
kill during the snapshot phase leaves the truncated prefix the step had
written so far, mirroring the truncate-on-open of the generated
`open(path, "w")` and its line-by-line writes.
-/

/-- Filesystem paths, modelled structurally: one string per component. -/
abbrev FilePath' := List String

/-- Renders a structural path the way `filepath.Join` produces it. -/
def FilePath'.render (p : FilePath') : String := String.intercalate "/" p

/-- An explicit filesystem state: the set of existing directories and the
files with their byte contents. -/
structure FS where
  dirs : List FilePath'
  files : List (FilePath' × String)
deriving DecidableEq

/-- Models `os.MkdirAll`: records the directory as existing. -/
def FS.mkdirAll (fs : FS) (p : FilePath') : FS :=
  { fs with dirs := p :: fs.dirs }

/-- Models `os.WriteFile`: full overwrite of the file at `p`. -/
def FS.writeFile (fs : FS) (p : FilePath') (c : String) : FS :=
  { fs with files := (p, c) :: fs.files.filter (fun f => f.1 ≠ p) }

/-- Reads the content of the file at `p`, if present. -/
def FS.readFile (fs : FS) (p : FilePath') : Option String :=
  (fs.files.find? (fun f => f.1 = p)).map (fun f => f.2)

/-- Models `os.Remove` on a single file. -/
def FS.removeFile (fs : FS) (p : FilePath') : FS :=
  { fs with files := fs.files.filter (fun f => f.1 ≠ p) }

/-- Models `os.RemoveAll`: removes the directory and everything below it. -/
def FS.removeAll (fs : FS) (dir : FilePath') : FS :=
  { dirs := fs.dirs.filter (fun d => ¬ dir.isPrefixOf d),
    files := fs.files.filter (fun f => ¬ dir.isPrefixOf f.1) }

/-- Keyed `find?` is unchanged by filtering with a predicate that holds at
the key being looked up (the filter can only drop non-matching entries). -/
theorem find?_key_filter {β : Type} (l : List (FilePath' × β)) (p : FilePath')
    (q : FilePath' × β → Bool) (hq : ∀ b, q (p, b) = true) :
    (l.filter q).find? (fun f => f.1 = p) = l.find? (fun f => f.1 = p) := by
  induction l with
  | nil => rfl
  | cons f t ih =>
    by_cases hfp : f.1 = p
    · have : q f = true := by
        have := hq f.2
        simpa [← hfp] using this
      simp [List.filter_cons, this, List.find?_cons, hfp]
    · by_cases hqf : q f = true
      · simp [List.filter_cons, hqf, List.find?_cons, hfp, ih]
      · simp [List.filter_cons, hqf, List.find?_cons, hfp, ih]

/-- Writing a different file does not change what `readFile` sees. -/
theorem readFile_writeFile_ne (fs : FS) (p q : FilePath') (c : String)
    (h : p ≠ q) : (fs.writeFile q c).readFile p = fs.readFile p := by
  unfold FS.writeFile FS.readFile
  simp only [List.find?_cons]
  rw [show (decide ((q, c).1 = p)) = false from by simp [Ne.symm h]]
  rw [find?_key_filter fs.files p _ (fun b => by simp [h])]

/-- Reading back a file just written yields the written content. -/
theorem readFile_writeFile_self (fs : FS) (p : FilePath') (c : String) :
    (fs.writeFile p c).readFile p = some c := by
  unfold FS.writeFile FS.readFile
  simp [List.find?_cons]

/-- Removing a different file does not change what `readFile` sees. -/
theorem readFile_removeFile_ne (fs : FS) (p q : FilePath')
    (h : p ≠ q) : (fs.removeFile q).readFile p = fs.readFile p := by
  unfold FS.removeFile FS.readFile
  rw [find?_key_filter fs.files p _ (fun b => by simp [h])]

/-- Removing a subtree that `p` is not under does not change `readFile`. -/
theorem readFile_removeAll_not_under (fs : FS) (dir p : FilePath')
    (h : dir.isPrefixOf p = false) :
    (fs.removeAll dir).readFile p = fs.readFile p := by
  unfold FS.removeAll FS.readFile
  rw [find?_key_filter fs.files p _ (by intro b; simp [h])]

/-- Directory membership survives `removeAll` of an unrelated subtree. -/
theorem mem_dirs_removeAll (fs : FS) (dir d : FilePath')
    (hm : d ∈ fs.dirs) (h : dir.isPrefixOf d = false) :
    d ∈ (fs.removeAll dir).dirs := by
  unfold FS.removeAll
  simp only [List.mem_filter, hm, true_and, decide_eq_true_eq]
  simp [h]

/-- writeFile does not change the directory set. -/
theorem dirs_writeFile (fs : FS) (p : FilePath') (c : String) :
    (fs.writeFile p c).dirs = fs.dirs := rfl

/-- removeFile does not change the directory set. -/
theorem dirs_removeFile (fs : FS) (p : FilePath') :
    (fs.removeFile p).dirs = fs.dirs := rfl

/-- mkdirAll does not change the file set. -/
theorem files_mkdirAll (fs : FS) (p : FilePath') :
    (fs.mkdirAll p).files = fs.files := rfl

/-- isPrefixOf is invariant under prepending a common prefix. -/
theorem isPrefixOf_append_left (base l1 l2 : List String) :
    (base ++ l1).isPrefixOf (base ++ l2) = l1.isPrefixOf l2 := by
  induction base with
  | nil => rfl
  | cons a t ih => simp [List.isPrefixOf, ih]

/-- A singleton extension of a common base is a prefix of another
extension exactly when the first components agree. -/
theorem isPrefixOf_base_single (base : List String) (a b : String)
    (t : List String) :
    (base ++ [a]).isPrefixOf (base ++ b :: t) = (a == b) := by
  rw [isPrefixOf_append_left]
  simp [List.isPrefixOf]

/-- Mirrors the Go `Session` struct (the `sync.Mutex` field is omitted:
the embedding is sequential, one operation at a time). -/
structure Session where
  ID : String
  sessionDir : FilePath'
  statePath : FilePath'
  lastUsed : Int
  isRunning : Bool
deriving DecidableEq

/-- Mirrors the Go `Manager` struct; the map is an association list with
Go-map semantics (assignment replaces, delete removes). -/
structure Manager where
  sessions : List (String × Session)
  baseDir : FilePath'
deriving DecidableEq

/-- Lookup in the sessions map, as `m.sessions[id]`. -/
def Manager.find (m : Manager) (id : String) : Option Session :=
  (m.sessions.find? (fun e => e.1 = id)).map (fun e => e.2)

/-- Map assignment `m.sessions[id] = s`: replaces any entry at the key. -/
def Manager.insert (m : Manager) (id : String) (s : Session) : Manager :=
  { m with sessions := (id, s) :: m.sessions.filter (fun e => e.1 ≠ id) }

/-- In-place update of the struct an existing map entry points to (Go
mutates through the shared pointer; here the entry is rewritten). -/
def Manager.updateAt (m : Manager) (id : String) (s : Session) : Manager :=
  { m with sessions := m.sessions.map (fun e => if e.1 = id then (id, s) else e) }

/-- Content of the freshly initialised session state file, from
`createNewSession`. -/
def initialStateContent : String := "# Python session state file\n"

/-- Mirrors `NewManager`: base directory under the temp dir, empty map.
The filesystem effect (MkdirAll on the base directory) is returned too. -/
def NewManager (tempDir : String) (fs : FS) : Manager × FS :=
  let baseDir : FilePath' := [tempDir, "python-sessions"]
  ({ sessions := [], baseDir := baseDir }, fs.mkdirAll baseDir)

/-- Mirrors `createNewSession`.  `genID` is the value `uuid.New().String()`
would produce, `now` the current time, and `mkdirOk`/`writeOk` whether the
two filesystem calls succeed. -/
def createNewSession (m : Manager) (fs : FS) (providedID genID : String)
    (now : Int) (mkdirOk writeOk : Bool) : Manager × FS × Except String Session :=
  let sessionID := if providedID = "" then genID else providedID
  let sessionDir := m.baseDir ++ [sessionID]
  if mkdirOk = false then
    (m, fs, Except.error "failed to create session directory")
  else
    let fs1 := fs.mkdirAll sessionDir
    let statePath := sessionDir ++ ["session_state.py"]
    if writeOk = false then
      (m, fs1, Except.error "failed to initialize session state")
    else
      let fs2 := fs1.writeFile statePath initialStateContent
      let s : Session :=
        { ID := sessionID, sessionDir := sessionDir, statePath := statePath,
          lastUsed := now, isRunning := true }
      (m.insert sessionID s, fs2, Except.ok s)

/-- Mirrors `GetOrCreateSession`: a non-empty id that maps to a running
session is returned as-is; otherwise a new session is created. -/
def GetOrCreateSession (m : Manager) (fs : FS) (id genID : String)
    (now : Int) (mkdirOk writeOk : Bool) : Manager × FS × Except String Session :=
  if id = "" then createNewSession m fs id genID now mkdirOk writeOk
  else
    match m.find id with
    | some s =>
      if s.isRunning then (m, fs, Except.ok s)
      else createNewSession m fs id genID now mkdirOk writeOk
    | none => createNewSession m fs id genID now mkdirOk writeOk

/-- Mirrors `Session.Cleanup`: if the session is still running, mark it
dead and remove its directory tree; otherwise do nothing. -/
def Session.Cleanup (s : Session) (fs : FS) : Session × FS :=
  if s.isRunning then ({ s with isRunning := false }, fs.removeAll s.sessionDir)
  else (s, fs)

/-- The loop body of `CleanupSessions`: entries idle past `maxAge` are
cleaned up and deleted from the map.  The third component collects the
reclaimed `Session` structs after their `Cleanup` ran — the values a Go
caller still holding the pointer would observe. -/
def cleanupLoop (now maxAge : Int) :
    List (String × Session) → FS → List (String × Session) × FS × List (String × Session)
  | [], fs => ([], fs, [])
  | (id, s) :: rest, fs =>
    if now - s.lastUsed > maxAge then
      let c := s.Cleanup fs
      let r := cleanupLoop now maxAge rest c.2
      (r.1, r.2.1, (id, c.1) :: r.2.2)
    else
      let r := cleanupLoop now maxAge rest fs
      ((id, s) :: r.1, r.2.1, r.2.2)

/-- Mirrors `CleanupSessions`. -/
def CleanupSessions (m : Manager) (fs : FS) (now maxAge : Int) :
    Manager × FS × List (String × Session) :=
  let r := cleanupLoop now maxAge m.sessions fs
  ({ m with sessions := r.1 }, r.2.1, r.2.2)

/-- Go `%q` quoting of a path string (escaping of the characters that can
occur in session paths; `%q` additionally escapes control characters,
which never appear in these paths). -/
def goEscapeChar (c : Char) : String :=
  if c = '\\' then "\\\\" else if c = '"' then "\\\"" else String.singleton c

/-- Quotes a string the way the `%q` verb of `fmt.Sprintf` does. -/
def goQuote (s : String) : String :=
  "\"" ++ String.join (s.data.map goEscapeChar) ++ "\""

/-- Name of the per-call temporary script file,
`fmt.Sprintf("exec_%d.py", time.Now().UnixNano())`. -/
def execTempName (nanos : Nat) : String := "exec_" ++ toString nanos ++ ".py"

/-- Literal text of the composed script before the first `%q` verb. -/
def scriptPart1 : String :=
  "\n# Import the session state\ntry:\n    exec(open("

/-- Literal text between the first `%q` and the `%s` verb: the tail of the
reload step (failures swallowed by the bare `except`) and the banner above
the user code. -/
def scriptPart2 : String :=
  ").read())\nexcept Exception as e:\n    pass  # Ignore errors when loading state\n\n# Execute the provided code\n"

/-- Literal text between `%s` and the second `%q`: start of the snapshot
step. -/
def scriptPart3 : String :=
  "\n\n# Save important variables to session state\nimport inspect, sys\nwith open("

/-- Literal text after the second `%q`: the snapshot loop.  It filters out
underscore-prefixed names, the name state_file, and module values, and
skips any name whose serialization raises. -/
def scriptPart4 : String :=
  ", \"w\") as state_file:\n    state_file.write(\"# Python session state file\\n\")\n    for name, value in list(locals().items()):\n        if not name.startswith(\"_\") and name != \"state_file\" and not inspect.ismodule(value):\n            try:\n                state_file.write(\"\x7b\x7d = \x7b!r\x7d\\n\".format(name, value))\n            except:\n                pass\n"

/-- The composed script `ExecuteCode` writes, i.e. the result of the
`fmt.Sprintf(format, s.statePath, code, s.statePath)` call. -/
def scriptContent (statePathStr code : String) : String :=
  scriptPart1 ++ goQuote statePathStr ++ scriptPart2 ++ code ++
    scriptPart3 ++ goQuote statePathStr ++ scriptPart4

/-- The reload portion of the composed script (everything before the user
code). -/
def reloadPrelude (statePathStr : String) : String :=
  scriptPart1 ++ goQuote statePathStr ++ scriptPart2

/-- The snapshot portion of the composed script (everything after the user
code). -/
def snapshotEpilogue (statePathStr : String) : String :=
  scriptPart3 ++ goQuote statePathStr ++ scriptPart4

/-- A top-level binding as seen by the snapshot loop: its name, whether the
value is a loaded module, and the text `"\x7b!r\x7d".format` renders for it
(`none` when rendering raises). -/
structure Binding where
  name : String
  isModule : Bool
  rendered : Option String
deriving DecidableEq

/-- Models Python's `name.startswith("_")`: whether the first character
is an underscore. -/
def pyStartsWithUnderscore (s : String) : Bool :=
  match s.data with
  | [] => false
  | c :: _ => c = '_'

/-- The filter of the snapshot loop, from the `if` of the composed script:
`not name.startswith("_") and name != "state_file" and not
inspect.ismodule(value)`. -/
def snapshotKeeps (b : Binding) : Bool :=
  !pyStartsWithUnderscore b.name && !(b.name == "state_file") && !b.isModule

/-- Modelled from the spec for comparison with `snapshotKeeps` (claim C9):
keeps every currently-bound top-level name except underscore-prefixed
names and module values. -/
def specSnapshotKeeps (b : Binding) : Bool :=
  !pyStartsWithUnderscore b.name && !b.isModule

/-- The snapshot line one loop iteration writes for a binding, if any. -/
def snapshotLine (b : Binding) : Option String :=
  if snapshotKeeps b then
    match b.rendered with
    | some r => some (b.name ++ " = " ++ r ++ "\n")
    | none => none
  else none

/-- Full content of the state file written by the snapshot step. -/
def renderSnapshot (bs : List Binding) : String :=
  "# Python session state file\n" ++ String.join (bs.filterMap snapshotLine)

/-- Outcome of the user-code phase of the composed script. -/
inductive UserOutcome where
  | completes (out : String) (bindings : List Binding)
  | raises (out traceback : String)
deriving DecidableEq

/-- Where, if anywhere, the deadline kill lands during the run of the
composed script.  A kill during the snapshot step records how many of the
step's write calls had completed: 0 means the truncating open had just
happened, 1 the header line was written, 1 + k the first k kept binding
lines were written. -/
inductive RunEvent where
  | killedDuringReload
  | killedDuringUserCode (partialOut partialErr : String)
  | killedDuringSnapshot (writesDone : Nat)
  | ranToCompletion
deriving DecidableEq

/-- Whether the process was killed by the deadline. -/
def RunEvent.isKill : RunEvent → Bool
  | RunEvent.ranToCompletion => false
  | _ => true

/-- Raw result of one interpreter run: the new state-file content (if the
snapshot step completed), captured output streams, exit status, and
whether the deadline elapsed. -/
structure RunResult where
  newState : Option String
  stdout : String
  stderr : String
  exitOk : Bool
  timedOut : Bool
deriving DecidableEq

/-- Content of the state file when the process dies after the snapshot
step performed `j` of its write calls: the `open(path, "w")` truncates the
file at once, write 1 appends the header line, write 1 + k the k-th kept
binding line. -/
def snapshotTruncated (bs : List Binding) (j : Nat) : String :=
  if j = 0 then ""
  else "# Python session state file\n" ++
    String.join ((bs.filterMap snapshotLine).take (j - 1))

/-- One run of the composed script by the external interpreter, at phase
granularity: reload, then the user code, then the snapshot step, in the
order they appear in the script.  A raise in the user code aborts the
script before the snapshot step; a kill discards the effects of a reload
or user-code phase it interrupts, but a kill inside the snapshot step
leaves behind whatever prefix the step had already written over the
truncated file. -/
def runComposedScript (user : UserOutcome) (ev : RunEvent) : RunResult :=
  match ev with
  | RunEvent.killedDuringReload =>
    { newState := none, stdout := "", stderr := "", exitOk := false, timedOut := true }
  | RunEvent.killedDuringUserCode po pe =>
    { newState := none, stdout := po, stderr := pe, exitOk := false, timedOut := true }
  | RunEvent.killedDuringSnapshot j =>
    match user with
    | UserOutcome.completes out bs =>
      { newState := some (snapshotTruncated bs j), stdout := out, stderr := "",
        exitOk := false, timedOut := true }
    | UserOutcome.raises out tb =>
      { newState := none, stdout := out, stderr := tb, exitOk := false, timedOut := true }
  | RunEvent.ranToCompletion =>
    match user with
    | UserOutcome.completes out bs =>
      { newState := some (renderSnapshot bs), stdout := out, stderr := "",
        exitOk := true, timedOut := false }
    | UserOutcome.raises out tb =>
      { newState := none, stdout := out, stderr := tb, exitOk := false, timedOut := false }

/-- The structured errors `ExecuteCode` can return. -/
inductive ExecError where
  | sessionGone
  | scriptWriteFailed
  | deadlineExceeded
  | runFailed
deriving DecidableEq

/-- The `Error()` text of each structured error (`runFailed` stands for
the `exec.ExitError` text of a non-zero exit). -/
def ExecError.message : ExecError → String
  | ExecError.sessionGone => "session is no longer running"
  | ExecError.scriptWriteFailed => "failed to create execution script"
  | ExecError.deadlineExceeded => "context deadline exceeded"
  | ExecError.runFailed => "exit status 1"

/-- The triple `ExecuteCode` returns, plus whether an interpreter process
was actually spawned. -/
structure ExecResult where
  stdout : String
  stderr : String
  err : Option ExecError
  invoked : Bool
deriving DecidableEq

/-- Mirrors `Session.ExecuteCode`.  `now` is the wall clock, `nanos` the
`UnixNano` value naming the temp script, `scriptWriteOk` whether the
`os.WriteFile` of the temp script succeeds, and `user`/`ev` the behaviour
of the spawned interpreter process. -/
def ExecuteCode (now : Int) (nanos : Nat) (scriptWriteOk : Bool) (code : String)
    (user : UserOutcome) (ev : RunEvent) (s : Session) (fs : FS) :
    Session × FS × ExecResult :=
  if s.isRunning = false then
    (s, fs, { stdout := "", stderr := "", err := some ExecError.sessionGone, invoked := false })
  else
    let s1 : Session := { s with lastUsed := now }
    let tempScriptPath : FilePath' := s.sessionDir ++ [execTempName nanos]
    if scriptWriteOk = false then
      (s1, fs, { stdout := "", stderr := "", err := some ExecError.scriptWriteFailed, invoked := false })
    else
      let fs1 := fs.writeFile tempScriptPath (scriptContent s.statePath.render code)
      let r := runComposedScript user ev
      let fs2 := match r.newState with
        | some c => fs1.writeFile s.statePath c
        | none => fs1
      let fs3 := fs2.removeFile tempScriptPath
      if r.timedOut then
        (s1, fs3, { stdout := "", stderr := "", err := some ExecError.deadlineExceeded, invoked := true })
      else
        (s1, fs3, { stdout := r.stdout, stderr := r.stderr,
                    err := if r.exitOk then none else some ExecError.runFailed, invoked := true })

/-- Mirrors `models.RequestPayload`. -/
structure RequestPayload where
  id : String
  code : String
deriving DecidableEq

/-- Mirrors `models.ResponsePayload`. -/
structure ResponsePayload where
  id : String
  stdout : String
  stderr : String
  error : String
deriving DecidableEq

/-- What the handler writes back: a transport-level error status or a JSON
response payload. -/
inductive HandlerOutput where
  | httpError (status : Nat) (body : String)
  | json (resp : ResponsePayload)
deriving DecidableEq

/-- Mirrors the helper `sendErrorResponse`: only the id and error fields
are populated. -/
def sendErrorResponse (sessionID message : String) : ResponsePayload :=
  { id := sessionID, stdout := "", stderr := "", error := message }

/-- The `err.Error()` text attached to the response, for a present error. -/
def errText : Option ExecError → String
  | some e => e.message
  | none => ""

/-- Mirrors `ExecuteHandler`.  `body` is the decoded request (`none` for a
malformed payload); the remaining parameters feed `GetOrCreateSession` and
`ExecuteCode` as above.  The check Go performs on `ctx.Err()` after the
run is `RunEvent.isKill ev && invoked` here: the shared context is
deadline-exceeded exactly when the spawned process was killed. -/
def ExecuteHandler (method : String) (body : Option RequestPayload)
    (m : Manager) (fs : FS) (genID : String) (now : Int)
    (mkdirOk writeOk scriptWriteOk : Bool) (nanos : Nat)
    (user : UserOutcome) (ev : RunEvent) : Manager × FS × HandlerOutput :=
  if method ≠ "POST" then
    (m, fs, HandlerOutput.httpError 405 "Invalid request method")
  else
    match body with
    | none =>
      (m, fs, HandlerOutput.httpError 400 "\x7b\"error\": \"Invalid request payload\"\x7d")
    | some req =>
      match GetOrCreateSession m fs req.id genID now mkdirOk writeOk with
      | (m1, fs1, Except.error _) =>
        (m1, fs1, HandlerOutput.json (sendErrorResponse "" "Failed to initialize session"))
      | (m1, fs1, Except.ok s) =>
        let r := ExecuteCode now nanos scriptWriteOk req.code user ev s fs1
        let m2 := m1.updateAt s.ID r.1
        if RunEvent.isKill ev && r.2.2.invoked then
          (m2, r.2.1, HandlerOutput.json (sendErrorResponse s.ID "execution timeout"))
        else if r.2.2.err.isSome && decide (r.2.2.stderr = "") then
          (m2, r.2.1, HandlerOutput.json
            { id := s.ID, stdout := "", stderr := "", error := errText r.2.2.err })
        else
          (m2, r.2.1, HandlerOutput.json
            { id := s.ID, stdout := r.2.2.stdout, stderr := r.2.2.stderr, error := "" })

/-- A reachable configuration of the registry: the sessions map plus the
filesystem. -/
structure Config where
  mgr : Manager
  fs : FS
deriving DecidableEq

/-- Successor configuration for a `GetOrCreateSession` call. -/
def stepGetOrCreate (c : Config) (id genID : String) (now : Int)
    (mkdirOk writeOk : Bool) : Config :=
  let r := GetOrCreateSession c.mgr c.fs id genID now mkdirOk writeOk
  { mgr := r.1, fs := r.2.1 }

/-- Successor configuration for an `ExecuteCode` call on the session the
map holds at `id` (the map entry reflects the struct mutation). -/
def stepExecute (c : Config) (id : String) (s : Session) (now : Int)
    (nanos : Nat) (scriptWriteOk : Bool) (code : String)
    (user : UserOutcome) (ev : RunEvent) : Config :=
  let r := ExecuteCode now nanos scriptWriteOk code user ev s c.fs
  { mgr := c.mgr.updateAt id r.1, fs := r.2.1 }

/-- Successor configuration for a `CleanupSessions` sweep. -/
def stepSweep (c : Config) (now maxAge : Int) : Config :=
  let r := CleanupSessions c.mgr c.fs now maxAge
  { mgr := r.1, fs := r.2.1 }

/-- Successor configuration for a direct `Session.Cleanup` call on the
session the map holds at `id` (the map entry reflects the struct
mutation; `CleanupSessions` is the only caller that also deletes the
entry). -/
def stepDirectCleanup (c : Config) (id : String) (s : Session) : Config :=
  let r := s.Cleanup c.fs
  { mgr := c.mgr.updateAt id r.1, fs := r.2 }

/-- Registry operations other than a direct per-session `Cleanup`. -/
inductive CoreStep : Config → Config → Prop where
  | getOrCreate (c : Config) (id genID : String) (now : Int) (mkdirOk writeOk : Bool) :
      CoreStep c (stepGetOrCreate c id genID now mkdirOk writeOk)
  | execute (c : Config) (id : String) (s : Session) (now : Int) (nanos : Nat)
      (scriptWriteOk : Bool) (code : String) (user : UserOutcome) (ev : RunEvent)
      (h : c.mgr.find id = some s) :
      CoreStep c (stepExecute c id s now nanos scriptWriteOk code user ev)
  | sweep (c : Config) (now maxAge : Int) :
      CoreStep c (stepSweep c now maxAge)

/-- All registry operations, including direct per-session `Cleanup`. -/
inductive Step : Config → Config → Prop where
  | core (c c' : Config) (h : CoreStep c c') : Step c c'
  | directCleanup (c : Config) (id : String) (s : Session)
      (h : c.mgr.find id = some s) :
      Step c (stepDirectCleanup c id s)

/-- The initial configuration: a fresh manager over a host filesystem. -/
def initConfig (tempDir : String) (fs0 : FS) : Config :=
  let r := NewManager tempDir fs0
  { mgr := r.1, fs := r.2 }

/-- No string starting with the characters of "exec_" equals the state
file name. -/
theorem exec_append_ne (x : String) : ("exec_" ++ x) ≠ "session_state.py" := by
  intro h
  have h2 := congrArg String.data h
  rw [String.data_append] at h2
  rw [show "exec_".data = ['e', 'x', 'e', 'c', '_'] from rfl] at h2
  rw [show "session_state.py".data =
    ['s', 'e', 's', 's', 'i', 'o', 'n', '_', 's', 't', 'a', 't', 'e', '.', 'p', 'y'] from rfl] at h2
  simp at h2

/-- The temp script name never collides with the state file name. -/
theorem execTempName_ne (n : Nat) : execTempName n ≠ "session_state.py" := by
  unfold execTempName
  rw [String.append_assoc]
  exact exec_append_ne (toString n ++ ".py")

/-- The state path and the temp script path of a session differ. -/
theorem statePath_ne_tempPath (s : Session) (nanos : Nat)
    (hwf : s.statePath = s.sessionDir ++ ["session_state.py"]) :
    s.statePath ≠ s.sessionDir ++ [execTempName nanos] := by
  rw [hwf]
  intro h
  have h2 := List.append_cancel_left h
  have h3 : "session_state.py" = execTempName nanos := by
    simpa using h2
  exact execTempName_ne nanos h3.symm

/-- Extensions of a common base by different single components differ,
also after appending a common tail. -/
theorem base_single_append_ne (base : List String) (a b : String)
    (t : List String) (h : a ≠ b) : base ++ [a] ++ t ≠ base ++ [b] ++ t := by
  intro hc
  have h2 := List.append_cancel_right hc
  have h3 := List.append_cancel_left h2
  simp at h3
  exact h h3

/-- The deadline flag of a run is exactly whether the kill landed. -/
theorem run_timedOut_eq (user : UserOutcome) (ev : RunEvent) :
    (runComposedScript user ev).timedOut = ev.isKill := by
  cases ev <;> cases user <;> rfl

/-- A raising run never reaches the snapshot step. -/
theorem run_newState_of_raises (out tb : String) (ev : RunEvent) :
    (runComposedScript (UserOutcome.raises out tb) ev).newState = none := by
  cases ev <;> rfl

/-- mkdirAll does not change what readFile sees. -/
theorem readFile_mkdirAll (fs : FS) (p q : FilePath') :
    (fs.mkdirAll q).readFile p = fs.readFile p := rfl

/-- A write-then-remove of one file leaves every other file unchanged. -/
theorem readFile_write_remove_other (fs : FS) (p q : FilePath') (c : String)
    (h : p ≠ q) : ((fs.writeFile q c).removeFile q).readFile p = fs.readFile p := by
  rw [readFile_removeFile_ne _ _ _ h, readFile_writeFile_ne _ _ _ _ h]

/-- ExecuteCode never touches the directory set. -/
theorem executeCode_dirs (now : Int) (nanos : Nat) (swOk : Bool) (code : String)
    (user : UserOutcome) (ev : RunEvent) (s : Session) (fs : FS) :
    (ExecuteCode now nanos swOk code user ev s fs).2.1.dirs = fs.dirs := by
  unfold ExecuteCode
  by_cases h1 : s.isRunning = false <;> by_cases h2 : swOk = false <;>
    cases hns : (runComposedScript user ev).newState <;>
    simp [h1, h2, hns, dirs_writeFile, dirs_removeFile] <;> split <;> rfl

/-- ExecuteCode leaves every file outside its temp script and state file
untouched. -/
theorem executeCode_readFile_other (now : Int) (nanos : Nat) (swOk : Bool)
    (code : String) (user : UserOutcome) (ev : RunEvent) (s : Session) (fs : FS)
    (p : FilePath')
    (hp1 : p ≠ s.sessionDir ++ [execTempName nanos]) (hp2 : p ≠ s.statePath) :
    (ExecuteCode now nanos swOk code user ev s fs).2.1.readFile p = fs.readFile p := by
  unfold ExecuteCode
  by_cases h1 : s.isRunning = false
  · simp [h1]
  · by_cases h2 : swOk = false
    · simp [h1, h2]
    · cases hns : (runComposedScript user ev).newState with
      | none =>
        by_cases h3 : (runComposedScript user ev).timedOut = true <;>
          simp [h1, h2, hns, h3, readFile_removeFile_ne _ _ _ hp1,
            readFile_writeFile_ne _ _ _ _ hp1]
      | some cont =>
        by_cases h3 : (runComposedScript user ev).timedOut = true <;>
          simp [h1, h2, hns, h3, readFile_removeFile_ne _ _ _ hp1,
            readFile_writeFile_ne _ _ _ _ hp2, readFile_writeFile_ne _ _ _ _ hp1]

/-- Concrete fixtures used by witness theorems. -/
def sampleSession : Session :=
  { ID := "sid", sessionDir := ["tmp", "python-sessions", "sid"],
    statePath := ["tmp", "python-sessions", "sid", "session_state.py"],
    lastUsed := 0, isRunning := true }

/-- Concrete filesystem fixture used by witness theorems. -/
def sampleFS : FS :=
  { dirs := [["tmp", "python-sessions"], ["tmp", "python-sessions", "sid"]],
    files := [(["tmp", "python-sessions", "sid", "session_state.py"],
               "# Python session state file\n")] }

/-- C1: when the deadline is exceeded during `ExecuteCode` (the spawned
interpreter is killed at any phase), the call returns empty stdout, empty
stderr, and the dedicated deadline-exceeded error (a constructor distinct
from every other failure), no matter what partial output the kill left in
the captured buffers. -/
theorem c1_timeout_discards_output (s : Session) (fs : FS) (now : Int) (nanos : Nat)
    (code : String) (user : UserOutcome) (ev : RunEvent)
    (hrun : s.isRunning = true) (hkill : ev.isKill = true) :
    (ExecuteCode now nanos true code user ev s fs).2.2 =
      { stdout := "", stderr := "", err := some ExecError.deadlineExceeded, invoked := true } := by
  unfold ExecuteCode
  cases hns : (runComposedScript user ev).newState <;>
    simp [hrun, hns, run_timedOut_eq, hkill]

/-- Witness for C1: a kill in the middle of the user code, with non-empty
partial output captured, still yields the empty-output timeout result. -/
theorem c1_witness :
    sampleSession.isRunning = true ∧
    (RunEvent.killedDuringUserCode "partial output" "partial err").isKill = true ∧
    (ExecuteCode 9 7 true "print(1)" (UserOutcome.completes "x" [])
        (RunEvent.killedDuringUserCode "partial output" "partial err")
        sampleSession sampleFS).2.2 =
      { stdout := "", stderr := "", err := some ExecError.deadlineExceeded, invoked := true } :=
  ⟨rfl, rfl, c1_timeout_discards_output sampleSession sampleFS 9 7 "print(1)"
    (UserOutcome.completes "x" []) (RunEvent.killedDuringUserCode "partial output" "partial err")
    rfl rfl⟩

/-- C6: every `ExecuteCode` call on a session whose alive flag is false
fails immediately with the session-gone error "session is no longer
running"; nothing is written, no interpreter is spawned, and the session
value (still dead) and filesystem are returned unchanged, so the failure
repeats identically on any later call. -/
theorem c6_dead_session_rejected (s : Session) (fs : FS) (now : Int) (nanos : Nat)
    (swOk : Bool) (code : String) (user : UserOutcome) (ev : RunEvent)
    (hdead : s.isRunning = false) :
    ExecuteCode now nanos swOk code user ev s fs =
      (s, fs, { stdout := "", stderr := "", err := some ExecError.sessionGone, invoked := false }) ∧
    ExecError.sessionGone.message = "session is no longer running" ∧
    (ExecuteCode now nanos swOk code user ev s fs).1.isRunning = false := by
  refine ⟨?_, rfl, ?_⟩
  · unfold ExecuteCode
    simp [hdead]
  · unfold ExecuteCode
    simp [hdead]

/-- Witness for C6 at a concrete dead session. -/
theorem c6_witness :
    ({ sampleSession with isRunning := false } : Session).isRunning = false ∧
    ExecuteCode 3 4 true "x = 1" (UserOutcome.completes "" []) RunEvent.ranToCompletion
        { sampleSession with isRunning := false } sampleFS =
      ({ sampleSession with isRunning := false }, sampleFS,
        { stdout := "", stderr := "", err := some ExecError.sessionGone, invoked := false }) :=
  ⟨rfl, (c6_dead_session_rejected { sampleSession with isRunning := false } sampleFS 3 4 true
    "x = 1" (UserOutcome.completes "" []) RunEvent.ranToCompletion rfl).1⟩

/-- A run whose snapshot step never wrote (no completed or partial
snapshot) leaves the state file byte-for-byte unchanged: the only other
writes are the temp script write and its removal. -/
theorem executeCode_state_unchanged_of_no_snapshot (s : Session) (fs : FS)
    (now : Int) (nanos : Nat) (swOk : Bool) (code : String)
    (user : UserOutcome) (ev : RunEvent)
    (hwf : s.statePath = s.sessionDir ++ ["session_state.py"])
    (hns : (runComposedScript user ev).newState = none) :
    (ExecuteCode now nanos swOk code user ev s fs).2.1.readFile s.statePath =
      fs.readFile s.statePath := by
  have hne := statePath_ne_tempPath s nanos hwf
  unfold ExecuteCode
  by_cases h1 : s.isRunning = false
  · simp [h1]
  · by_cases h2 : swOk = false
    · simp [h1, h2]
    · by_cases h3 : (runComposedScript user ev).timedOut = true <;>
        simp [h1, h2, h3, hns, readFile_write_remove_other _ _ _ _ hne]

/-- A concrete stale state file for the C2 scenario, holding one binding
from an earlier call. -/
def staleFS : FS :=
  { dirs := [["tmp", "python-sessions"], ["tmp", "python-sessions", "sid"]],
    files := [(["tmp", "python-sessions", "sid", "session_state.py"],
               "# Python session state file\nx = 1\n")] }

/-- C2 counterexample: the user code completes just within the deadline
and the kill lands right after the snapshot step's truncating
`open(path, "w")`: the call returns the dedicated timeout error, yet the
state file has been emptied — not byte-for-byte what it was before the
call. -/
theorem c2_counterexample :
    staleFS.readFile sampleSession.statePath =
      some "# Python session state file\nx = 1\n" ∧
    (ExecuteCode 9 7 true "x = 2"
        (UserOutcome.completes "" [{ name := "x", isModule := false, rendered := some "2" }])
        (RunEvent.killedDuringSnapshot 0) sampleSession staleFS).2.2 =
      { stdout := "", stderr := "", err := some ExecError.deadlineExceeded, invoked := true } ∧
    (ExecuteCode 9 7 true "x = 2"
        (UserOutcome.completes "" [{ name := "x", isModule := false, rendered := some "2" }])
        (RunEvent.killedDuringSnapshot 0) sampleSession staleFS).2.1.readFile
      sampleSession.statePath = some "" := by
  refine ⟨by decide, by decide, by decide⟩

/-- C2 (amended): the state file is byte-for-byte unchanged on every
failing call in which the snapshot step never started writing — a dead
session, a failed temp-script write, a deadline kill during the state
reload or during the user code (the user code did not complete within the
deadline, so the snapshot step, placed after it, never ran), and every
non-deadline run failure (the user code raised, aborting the script before
the snapshot step).  Only when the user code completes and the kill lands
inside the snapshot step itself can a truncated or partial state file
remain, because that step opens the file with the truncating mode "w". -/
theorem c2_failure_outside_snapshot_preserves_state (s : Session) (fs : FS)
    (now : Int) (nanos : Nat) (swOk : Bool) (code : String)
    (user : UserOutcome) (ev : RunEvent) (e : ExecError)
    (hwf : s.statePath = s.sessionDir ++ ["session_state.py"])
    (hsafe : s.isRunning = false ∨ swOk = false ∨
      ev = RunEvent.killedDuringReload ∨
      (∃ po pe, ev = RunEvent.killedDuringUserCode po pe) ∨
      (∃ out tb, user = UserOutcome.raises out tb))
    (herr : (ExecuteCode now nanos swOk code user ev s fs).2.2.err = some e) :
    (ExecuteCode now nanos swOk code user ev s fs).2.1.readFile s.statePath =
      fs.readFile s.statePath := by
  rcases hsafe with h1 | h2 | h3 | ⟨po, pe, h4⟩ | ⟨out, tb, h5⟩
  · unfold ExecuteCode
    simp [h1]
  · unfold ExecuteCode
    by_cases h1 : s.isRunning = false
    · simp [h1]
    · simp [h1, h2]
  · subst h3
    exact executeCode_state_unchanged_of_no_snapshot s fs now nanos swOk code
      user RunEvent.killedDuringReload hwf (by cases user <;> rfl)
  · subst h4
    exact executeCode_state_unchanged_of_no_snapshot s fs now nanos swOk code
      user (RunEvent.killedDuringUserCode po pe) hwf (by cases user <;> rfl)
  · subst h5
    exact executeCode_state_unchanged_of_no_snapshot s fs now nanos swOk code
      (UserOutcome.raises out tb) ev hwf (run_newState_of_raises out tb ev)

/-- Witness for C2 (amended) at concrete inputs: a raising run (non-zero
exit) and a kill in the middle of the user code both leave the stale state
file content untouched. -/
theorem c2_witness :
    sampleSession.statePath = sampleSession.sessionDir ++ ["session_state.py"] ∧
    (ExecuteCode 9 7 true "boom" (UserOutcome.raises "" "NameError: boom")
        RunEvent.ranToCompletion sampleSession staleFS).2.2.err = some ExecError.runFailed ∧
    (ExecuteCode 9 7 true "boom" (UserOutcome.raises "" "NameError: boom")
        RunEvent.ranToCompletion sampleSession staleFS).2.1.readFile sampleSession.statePath =
      staleFS.readFile sampleSession.statePath ∧
    (ExecuteCode 9 7 true "while True: pass" (UserOutcome.completes "" [])
        (RunEvent.killedDuringUserCode "po" "") sampleSession staleFS).2.2.err =
      some ExecError.deadlineExceeded ∧
    (ExecuteCode 9 7 true "while True: pass" (UserOutcome.completes "" [])
        (RunEvent.killedDuringUserCode "po" "") sampleSession staleFS).2.1.readFile
      sampleSession.statePath = staleFS.readFile sampleSession.statePath :=
  ⟨rfl, by decide,
    c2_failure_outside_snapshot_preserves_state sampleSession staleFS 9 7 true "boom"
      (UserOutcome.raises "" "NameError: boom") RunEvent.ranToCompletion
      ExecError.runFailed rfl
      (Or.inr (Or.inr (Or.inr (Or.inr ⟨"", "NameError: boom", rfl⟩)))) (by decide),
    by decide,
    c2_failure_outside_snapshot_preserves_state sampleSession staleFS 9 7 true
      "while True: pass" (UserOutcome.completes "" [])
      (RunEvent.killedDuringUserCode "po" "") ExecError.deadlineExceeded rfl
      (Or.inr (Or.inr (Or.inr (Or.inl ⟨"po", "", rfl⟩)))) (by decide)⟩

/-- A run whose user code raises: outputs are returned exactly as
captured, with the non-zero-exit error attached. -/
theorem executeCode_raises (s : Session) (fs : FS) (now : Int) (nanos : Nat)
    (code out tb : String) (h : s.isRunning = true) :
    ExecuteCode now nanos true code (UserOutcome.raises out tb) RunEvent.ranToCompletion s fs =
      ({ s with lastUsed := now },
       ((fs.writeFile (s.sessionDir ++ [execTempName nanos])
           (scriptContent s.statePath.render code)).removeFile
         (s.sessionDir ++ [execTempName nanos])),
       { stdout := out, stderr := tb, err := some ExecError.runFailed, invoked := true }) := by
  unfold ExecuteCode
  simp [h, runComposedScript]

/-- A non-empty id mapping to a live session makes `GetOrCreateSession`
return it with no state change. -/
theorem getOrCreate_existing (m : Manager) (fs : FS) (id genID : String)
    (now : Int) (mk wr : Bool) (s : Session)
    (hid : id ≠ "") (hfind : m.find id = some s) (hrun : s.isRunning = true) :
    GetOrCreateSession m fs id genID now mk wr = (m, fs, Except.ok s) := by
  unfold GetOrCreateSession
  simp [hid, hfind, hrun]

/-- C3: for a failure other than the deadline (user code raised, non-zero
exit), `ExecuteCode` returns stdout and stderr exactly as captured
together with the run error, and the handler surfaces a call-level error
only when that failure came with empty stderr: with a non-empty traceback
the response carries the captured output and an empty error field; with an
empty stderr the response carries the non-empty error text. -/
theorem c3_user_failure_channels :
    (∀ (s : Session) (fs : FS) (now : Int) (nanos : Nat) (code out tb : String),
       s.isRunning = true →
       (ExecuteCode now nanos true code (UserOutcome.raises out tb)
           RunEvent.ranToCompletion s fs).2.2 =
         { stdout := out, stderr := tb, err := some ExecError.runFailed, invoked := true })
  ∧ (∀ (m : Manager) (fs : FS) (req : RequestPayload) (s : Session)
       (genID : String) (now : Int) (mk wr : Bool) (nanos : Nat) (out tb : String),
       req.id ≠ "" → m.find req.id = some s → s.isRunning = true → tb ≠ "" →
       (ExecuteHandler "POST" (some req) m fs genID now mk wr true nanos
           (UserOutcome.raises out tb) RunEvent.ranToCompletion).2.2 =
         HandlerOutput.json { id := s.ID, stdout := out, stderr := tb, error := "" })
  ∧ (∀ (m : Manager) (fs : FS) (req : RequestPayload) (s : Session)
       (genID : String) (now : Int) (mk wr : Bool) (nanos : Nat) (out : String),
       req.id ≠ "" → m.find req.id = some s → s.isRunning = true →
       (ExecuteHandler "POST" (some req) m fs genID now mk wr true nanos
           (UserOutcome.raises out "") RunEvent.ranToCompletion).2.2 =
         HandlerOutput.json { id := s.ID, stdout := "", stderr := "",
                              error := ExecError.runFailed.message } ∧
       ExecError.runFailed.message ≠ "") := by
  refine ⟨?_, ?_, ?_⟩
  · intro s fs now nanos code out tb h
    rw [executeCode_raises s fs now nanos code out tb h]
  · intro m fs req s genID now mk wr nanos out tb hid hfind hrun htb
    simp [ExecuteHandler, getOrCreate_existing m fs req.id genID now mk wr s hid hfind hrun,
      executeCode_raises s fs now nanos req.code out tb hrun, RunEvent.isKill,
      errText, htb]
  · intro m fs req s genID now mk wr nanos out hid hfind hrun
    refine ⟨?_, by decide⟩
    simp [ExecuteHandler, getOrCreate_existing m fs req.id genID now mk wr s hid hfind hrun,
      executeCode_raises s fs now nanos req.code out "" hrun, RunEvent.isKill, errText]

/-- Witness for C3 at concrete inputs: a raising run with a traceback
keeps both output channels and surfaces no call-level error; the same run
with silent stderr surfaces the run error with cleared output. -/
theorem c3_witness :
    sampleSession.isRunning = true ∧
    (ExecuteCode 4 5 true "boom" (UserOutcome.raises "some out" "NameError")
        RunEvent.ranToCompletion sampleSession sampleFS).2.2 =
      { stdout := "some out", stderr := "NameError",
        err := some ExecError.runFailed, invoked := true } ∧
    ({ sessions := [("sid", sampleSession)], baseDir := ["tmp", "python-sessions"] } :
        Manager).find "sid" = some sampleSession ∧
    (ExecuteHandler "POST" (some { id := "sid", code := "boom" })
        { sessions := [("sid", sampleSession)], baseDir := ["tmp", "python-sessions"] }
        sampleFS "g" 4 true true true 5
        (UserOutcome.raises "some out" "NameError") RunEvent.ranToCompletion).2.2 =
      HandlerOutput.json { id := "sid", stdout := "some out", stderr := "NameError",
                           error := "" } ∧
    (ExecuteHandler "POST" (some { id := "sid", code := "boom" })
        { sessions := [("sid", sampleSession)], baseDir := ["tmp", "python-sessions"] }
        sampleFS "g" 4 true true true 5
        (UserOutcome.raises "some out" "") RunEvent.ranToCompletion).2.2 =
      HandlerOutput.json { id := "sid", stdout := "", stderr := "",
                           error := ExecError.runFailed.message } := by
  refine ⟨rfl, ?_, by decide, ?_, ?_⟩
  · exact c3_user_failure_channels.1 sampleSession sampleFS 4 5 "boom" "some out"
      "NameError" rfl
  · exact c3_user_failure_channels.2.1 _ sampleFS
      { id := "sid", code := "boom" } sampleSession "g" 4 true true 5 "some out"
      "NameError" (by decide) (by decide) rfl (by decide)
  · exact (c3_user_failure_channels.2.2 _ sampleFS
      { id := "sid", code := "boom" } sampleSession "g" 4 true true 5 "some out"
      (by decide) (by decide) rfl).1

/-- C10: in every JSON response the execute handler produces, a non-empty
error field comes with empty stdout and stderr: the session-creation and
timeout paths send error-only payloads, and the call-level-error path
clears the captured stdout before responding. -/
theorem c10_error_implies_empty_output (method : String) (body : Option RequestPayload)
    (m : Manager) (fs : FS) (genID : String) (now : Int) (mkdirOk writeOk swOk : Bool)
    (nanos : Nat) (user : UserOutcome) (ev : RunEvent) (r : ResponsePayload)
    (hj : (ExecuteHandler method body m fs genID now mkdirOk writeOk swOk nanos user ev).2.2 =
      HandlerOutput.json r)
    (he : r.error ≠ "") : r.stdout = "" ∧ r.stderr = "" := by
  by_cases hm : method ≠ "POST"
  · simp [ExecuteHandler, hm] at hj
  · cases body with
    | none => simp [ExecuteHandler, hm] at hj
    | some req =>
      rcases hg : GetOrCreateSession m fs req.id genID now mkdirOk writeOk with ⟨m1, fs1, res⟩
      cases res with
      | error e =>
        simp [ExecuteHandler, hm, hg, sendErrorResponse] at hj
        rw [← hj]
        exact ⟨rfl, rfl⟩
      | ok s =>
        by_cases hk : (RunEvent.isKill ev &&
            (ExecuteCode now nanos swOk req.code user ev s fs1).2.2.invoked) = true
        · simp [ExecuteHandler, hm, hg, hk, sendErrorResponse] at hj
          rw [← hj]
          exact ⟨rfl, rfl⟩
        · by_cases hes : ((ExecuteCode now nanos swOk req.code user ev s fs1).2.2.err.isSome &&
              decide ((ExecuteCode now nanos swOk req.code user ev s fs1).2.2.stderr = "")) = true
          · simp [ExecuteHandler, hm, hg, hk, hes] at hj
            rw [← hj]
            exact ⟨rfl, rfl⟩
          · simp [ExecuteHandler, hm, hg, hk, hes] at hj
            rw [← hj] at he
            simp at he

/-- Witness for C10: the concrete timeout path produces an error-only
response, whose output fields the theorem shows empty. -/
theorem c10_witness :
    ((ExecuteHandler "POST" (some { id := "", code := "print(1)" })
        { sessions := [], baseDir := ["tmp", "python-sessions"] } sampleFS
        "g1" 0 true true true 5 (UserOutcome.completes "" [])
        (RunEvent.killedDuringUserCode "po" "pe")).2.2 =
      HandlerOutput.json { id := "g1", stdout := "", stderr := "",
                           error := "execution timeout" }) ∧
    ({ id := "g1", stdout := "", stderr := "", error := "execution timeout" } :
        ResponsePayload).error ≠ "" ∧
    ({ id := "g1", stdout := "", stderr := "", error := "execution timeout" } :
        ResponsePayload).stdout = "" ∧
    ({ id := "g1", stdout := "", stderr := "", error := "execution timeout" } :
        ResponsePayload).stderr = "" := by
  refine ⟨by decide, by decide, ?_⟩
  exact c10_error_implies_empty_output "POST" (some { id := "", code := "print(1)" })
    { sessions := [], baseDir := ["tmp", "python-sessions"] } sampleFS
    "g1" 0 true true true 5 (UserOutcome.completes "" [])
    (RunEvent.killedDuringUserCode "po" "pe")
    { id := "g1", stdout := "", stderr := "", error := "execution timeout" }
    (by decide) (by decide)

/-- The session value `createNewSession` constructs for a given final id. -/
def freshSession (base : FilePath') (sid : String) (now : Int) : Session :=
  { ID := sid, sessionDir := base ++ [sid],
    statePath := base ++ [sid] ++ ["session_state.py"],
    lastUsed := now, isRunning := true }

/-- Looking up the key just inserted yields the inserted session. -/
theorem find_insert_self (m : Manager) (id : String) (s : Session) :
    (m.insert id s).find id = some s := by
  unfold Manager.insert Manager.find
  simp [List.find?_cons]

/-- `createNewSession` on a successful filesystem: registers and returns
the fresh session under the provided id, or under the generated id when
none was provided. -/
theorem createNewSession_ok (m : Manager) (fs : FS) (id genID : String) (now : Int) :
    createNewSession m fs id genID now true true =
      (m.insert (if id = "" then genID else id)
         (freshSession m.baseDir (if id = "" then genID else id) now),
       (fs.mkdirAll (m.baseDir ++ [if id = "" then genID else id])).writeFile
         (m.baseDir ++ [if id = "" then genID else id] ++ ["session_state.py"])
         initialStateContent,
       Except.ok (freshSession m.baseDir (if id = "" then genID else id) now)) := by
  unfold createNewSession freshSession
  simp

/-- C4: a non-empty id bound to a live session is returned unchanged with
no registry or filesystem effect; an empty id always takes the creation
path (no lookup), registering and returning a fresh session whose id is
the newly generated one — hence two empty-id calls with distinct generated
ids yield distinct session ids. -/
theorem c4_get_or_create_spec :
    (∀ (m : Manager) (fs : FS) (id genID : String) (now : Int) (mk wr : Bool) (s : Session),
       id ≠ "" → m.find id = some s → s.isRunning = true →
       GetOrCreateSession m fs id genID now mk wr = (m, fs, Except.ok s))
  ∧ (∀ (m : Manager) (fs : FS) (genID : String) (now : Int),
       (GetOrCreateSession m fs "" genID now true true).2.2 =
         Except.ok (freshSession m.baseDir genID now) ∧
       (GetOrCreateSession m fs "" genID now true true).1.find genID =
         some (freshSession m.baseDir genID now) ∧
       (freshSession m.baseDir genID now).ID = genID)
  ∧ (∀ (m : Manager) (fs : FS) (genID1 genID2 : String) (now1 now2 : Int)
       (s1 s2 : Session),
       genID1 ≠ genID2 →
       (GetOrCreateSession m fs "" genID1 now1 true true).2.2 = Except.ok s1 →
       (GetOrCreateSession (GetOrCreateSession m fs "" genID1 now1 true true).1
           (GetOrCreateSession m fs "" genID1 now1 true true).2.1
           "" genID2 now2 true true).2.2 = Except.ok s2 →
       s1.ID ≠ s2.ID) := by
  refine ⟨?_, ?_, ?_⟩
  · intro m fs id genID now mk wr s hid hfind hrun
    exact getOrCreate_existing m fs id genID now mk wr s hid hfind hrun
  · intro m fs genID now
    unfold GetOrCreateSession
    rw [if_pos rfl, createNewSession_ok]
    refine ⟨by simp, by simp [find_insert_self], rfl⟩
  · intro m fs genID1 genID2 now1 now2 s1 s2 hne h1 h2
    unfold GetOrCreateSession at h1 h2
    rw [if_pos rfl, createNewSession_ok] at h1
    rw [if_pos rfl, createNewSession_ok] at h2
    simp at h1 h2
    rw [← h1, ← h2]
    simpa [freshSession] using hne

/-- Witness for C4 at concrete inputs. -/
theorem c4_witness :
    (GetOrCreateSession
        { sessions := [("sid", sampleSession)], baseDir := ["tmp", "python-sessions"] }
        sampleFS "sid" "g" 3 true true =
      ({ sessions := [("sid", sampleSession)], baseDir := ["tmp", "python-sessions"] },
        sampleFS, Except.ok sampleSession)) ∧
    ((GetOrCreateSession { sessions := [], baseDir := ["tmp", "python-sessions"] }
        sampleFS "" "g1" 0 true true).2.2 =
      Except.ok (freshSession ["tmp", "python-sessions"] "g1" 0)) ∧
    ("g1" : String) ≠ "g2" ∧
    (freshSession ["tmp", "python-sessions"] "g1" 0).ID ≠
      (freshSession ["tmp", "python-sessions"] "g2" 5).ID := by
  refine ⟨?_, ?_, by decide, ?_⟩
  · exact c4_get_or_create_spec.1 _ sampleFS "sid" "g" 3 true true sampleSession
      (by decide) (by decide) rfl
  · exact (c4_get_or_create_spec.2.1 { sessions := [], baseDir := ["tmp", "python-sessions"] }
      sampleFS "g1" 0).1
  · exact c4_get_or_create_spec.2.2 { sessions := [], baseDir := ["tmp", "python-sessions"] }
      sampleFS "g1" "g2" 0 5 (freshSession ["tmp", "python-sessions"] "g1" 0)
      (freshSession ["tmp", "python-sessions"] "g2" 5) (by decide) rfl rfl

/-- C8: when the creation path is taken and a filesystem step fails,
`GetOrCreateSession` returns an error and no session, with the sessions
map exactly as before the call. -/
theorem c8_create_failure_unregistered (m : Manager) (fs : FS) (id genID : String)
    (now : Int) (mk wr : Bool)
    (hcreate : id = "" ∨ m.find id = none ∨
      ∃ s, m.find id = some s ∧ s.isRunning = false)
    (hfail : mk = false ∨ wr = false) :
    ∃ e fs1, GetOrCreateSession m fs id genID now mk wr = (m, fs1, Except.error e) := by
  have hcc : ∃ e fs1, createNewSession m fs id genID now mk wr = (m, fs1, Except.error e) := by
    unfold createNewSession
    rcases hfail with h | h
    · subst h
      exact ⟨_, _, rfl⟩
    · subst h
      cases mk <;> exact ⟨_, _, rfl⟩
  unfold GetOrCreateSession
  rcases hcreate with h | h | ⟨s, hs, hdead⟩
  · simpa [h] using hcc
  · by_cases hid : id = ""
    · simpa [hid] using hcc
    · simpa [hid, h] using hcc
  · by_cases hid : id = ""
    · simpa [hid] using hcc
    · simpa [hid, hs, hdead] using hcc

/-- Witness for C8: a failing directory creation on a fresh id leaves the
registry map untouched. -/
theorem c8_witness :
    (("sid2" : String) = "" ∨
      ({ sessions := [("sid", sampleSession)], baseDir := ["tmp", "python-sessions"] } :
        Manager).find "sid2" = none ∨
      ∃ s, ({ sessions := [("sid", sampleSession)], baseDir := ["tmp", "python-sessions"] } :
        Manager).find "sid2" = some s ∧ s.isRunning = false) ∧
    ((false : Bool) = false ∨ (true : Bool) = false) ∧
    ∃ e fs1, GetOrCreateSession
        { sessions := [("sid", sampleSession)], baseDir := ["tmp", "python-sessions"] }
        sampleFS "sid2" "g" 0 false true =
      ({ sessions := [("sid", sampleSession)], baseDir := ["tmp", "python-sessions"] },
        fs1, Except.error e) :=
  ⟨Or.inr (Or.inl (by decide)), Or.inl rfl,
    c8_create_failure_unregistered
      { sessions := [("sid", sampleSession)], baseDir := ["tmp", "python-sessions"] }
      sampleFS "sid2" "g" 0 false true (Or.inr (Or.inl (by decide))) (Or.inl rfl)⟩

/-- A directory is gone right after removeAll on it. -/
theorem not_mem_dirs_removeAll_self (fs : FS) (dir : FilePath') :
    dir ∉ (fs.removeAll dir).dirs := by
  unfold FS.removeAll
  simp [List.mem_filter]

/-- Two entries of a list with nodup keys and equal keys coincide. -/
theorem eq_of_keys_nodup {α β : Type} (l : List (α × β))
    (hnd : (l.map Prod.fst).Nodup) {e f : α × β}
    (he : e ∈ l) (hf : f ∈ l) (hk : e.1 = f.1) : e = f := by
  induction l with
  | nil => cases he
  | cons g t ih =>
    rcases List.mem_cons.mp he with he1 | he2 <;>
      rcases List.mem_cons.mp hf with hf1 | hf2
    · rw [he1, hf1]
    · exfalso
      rw [List.map_cons, List.nodup_cons] at hnd
      apply hnd.1
      rw [← he1, hk]
      exact List.mem_map_of_mem Prod.fst hf2
    · exfalso
      rw [List.map_cons, List.nodup_cons] at hnd
      apply hnd.1
      rw [← hf1, ← hk]
      exact List.mem_map_of_mem Prod.fst he2
    · exact ih (List.Nodup.of_cons (by simpa using hnd)) he2 hf2

/-- The map entries surviving a sweep are exactly the non-expired ones, in
order and unchanged. -/
theorem cleanupLoop_kept (now maxAge : Int) (l : List (String × Session)) :
    ∀ fs, (cleanupLoop now maxAge l fs).1 =
      l.filter (fun e => decide (now - e.2.lastUsed ≤ maxAge)) := by
  induction l with
  | nil => intro fs; rfl
  | cons e t ih =>
    intro fs
    rcases e with ⟨id, s⟩
    by_cases hexp : now - s.lastUsed > maxAge
    · have hc : decide (now - s.lastUsed ≤ maxAge) = false :=
        decide_eq_false (by omega)
      simp [cleanupLoop, hexp, List.filter_cons, hc, ih]
      rw [if_neg (by omega)]
    · have hc : decide (now - s.lastUsed ≤ maxAge) = true :=
        decide_eq_true (by omega)
      simp [cleanupLoop, hexp, List.filter_cons, hc, ih]
      rw [if_pos (by omega)]

/-- A sweep only ever removes directories. -/
theorem cleanupLoop_dirs_mono (now maxAge : Int) (l : List (String × Session)) :
    ∀ fs d, d ∈ (cleanupLoop now maxAge l fs).2.1.dirs → d ∈ fs.dirs := by
  induction l with
  | nil => intro fs d h; exact h
  | cons e t ih =>
    intro fs d h
    rcases e with ⟨id, s⟩
    by_cases hexp : now - s.lastUsed > maxAge
    · simp only [cleanupLoop, hexp, if_pos] at h
      have h2 := ih (s.Cleanup fs).2 d h
      unfold Session.Cleanup at h2
      by_cases hrun : s.isRunning = true
      · rw [if_pos hrun] at h2
        unfold FS.removeAll at h2
        exact (List.mem_filter.mp h2).1
      · rw [if_neg hrun] at h2
        exact h2
    · simp only [cleanupLoop, hexp] at h
      exact ih fs d (by simpa using h)

/-- The storage directory of an expired live session is gone after the
sweep. -/
theorem cleanupLoop_dir_removed (now maxAge : Int) (l : List (String × Session))
    (id : String) (s : Session) :
    ∀ fs, (id, s) ∈ l → now - s.lastUsed > maxAge → s.isRunning = true →
      s.sessionDir ∉ (cleanupLoop now maxAge l fs).2.1.dirs := by
  induction l with
  | nil => intro fs h; cases h
  | cons e t ih =>
    intro fs hmem hexp hrun hcontra
    rcases List.mem_cons.mp hmem with he | ht
    · rw [← he] at hcontra
      simp only [cleanupLoop, hexp, if_pos] at hcontra
      have h2 := cleanupLoop_dirs_mono now maxAge t (s.Cleanup fs).2 s.sessionDir hcontra
      unfold Session.Cleanup at h2
      rw [if_pos hrun] at h2
      exact not_mem_dirs_removeAll_self fs s.sessionDir h2
    · rcases e with ⟨id2, s2⟩
      by_cases hexp2 : now - s2.lastUsed > maxAge
      · simp only [cleanupLoop, hexp2, if_pos] at hcontra
        exact ih (s2.Cleanup fs).2 ht hexp hrun hcontra
      · simp only [cleanupLoop, hexp2] at hcontra
        exact ih fs ht hexp hrun (by simpa using hcontra)

/-- Every expired live entry shows up, marked dead, in the reclaimed list
of the sweep. -/
theorem cleanupLoop_reclaimed_mem (now maxAge : Int) (l : List (String × Session))
    (id : String) (s : Session) :
    ∀ fs, (id, s) ∈ l → now - s.lastUsed > maxAge → s.isRunning = true →
      (id, { s with isRunning := false }) ∈ (cleanupLoop now maxAge l fs).2.2 := by
  induction l with
  | nil => intro fs h; cases h
  | cons e t ih =>
    intro fs hmem hexp hrun
    rcases List.mem_cons.mp hmem with he | ht
    · rw [← he]
      simp only [cleanupLoop, hexp, if_pos]
      unfold Session.Cleanup
      rw [if_pos hrun]
      exact List.mem_cons_self _ _
    · rcases e with ⟨id2, s2⟩
      by_cases hexp2 : now - s2.lastUsed > maxAge
      · simp only [cleanupLoop, hexp2, if_pos]
        exact List.mem_cons_of_mem _ (ih (s2.Cleanup fs).2 ht hexp hrun)
      · simp only [cleanupLoop, hexp2]
        simpa using ih fs ht hexp hrun

/-- The sweep leaves every file alone that sits under no expired entry's
directory. -/
theorem cleanupLoop_readFile (now maxAge : Int) (l : List (String × Session)) :
    ∀ fs p, (∀ e ∈ l, now - e.2.lastUsed > maxAge →
        e.2.sessionDir.isPrefixOf p = false) →
      (cleanupLoop now maxAge l fs).2.1.readFile p = fs.readFile p := by
  induction l with
  | nil => intro fs p _; rfl
  | cons e t ih =>
    intro fs p hp
    rcases e with ⟨id, s⟩
    by_cases hexp : now - s.lastUsed > maxAge
    · simp only [cleanupLoop, hexp, if_pos]
      have ht := ih (s.Cleanup fs).2 p (fun f hf => hp f (List.mem_cons_of_mem _ hf))
      rw [ht]
      unfold Session.Cleanup
      by_cases hrun : s.isRunning = true
      · rw [if_pos hrun]
        exact readFile_removeAll_not_under fs _ p
          (hp (id, s) (List.mem_cons_self _ _) hexp)
      · rw [if_neg hrun]
    · simp only [cleanupLoop, hexp]
      simpa using ih fs p (fun f hf => hp f (List.mem_cons_of_mem _ hf))

/-- After the sweep the key of an expired entry resolves to nothing
(assuming, as the map guarantees, nodup keys). -/
theorem cleanup_find_none (m : Manager) (fs : FS) (now maxAge : Int)
    (hnd : (m.sessions.map Prod.fst).Nodup) (e : String × Session)
    (hmem : e ∈ m.sessions) (hexp : now - e.2.lastUsed > maxAge) :
    (CleanupSessions m fs now maxAge).1.find e.1 = none := by
  unfold CleanupSessions Manager.find
  simp only [Option.map_eq_none']
  rw [cleanupLoop_kept]
  rw [List.find?_eq_none]
  intro x hx
  have hx2 := List.mem_filter.mp hx
  intro hkey
  have hxe : x = e := eq_of_keys_nodup m.sessions hnd hx2.1 hmem (by simpa using hkey)
  rw [hxe] at hx2
  have := of_decide_eq_true hx2.2
  omega

/-- A lookup miss (or empty id) sends `GetOrCreateSession` down the
creation path, whose successful outcome is fully determined. -/
theorem getOrCreate_fresh (m : Manager) (fs : FS) (id genID : String) (now : Int)
    (hfind : m.find id = none) :
    GetOrCreateSession m fs id genID now true true =
      (m.insert (if id = "" then genID else id)
         (freshSession m.baseDir (if id = "" then genID else id) now),
       (fs.mkdirAll (m.baseDir ++ [if id = "" then genID else id])).writeFile
         (m.baseDir ++ [if id = "" then genID else id] ++ ["session_state.py"])
         initialStateContent,
       Except.ok (freshSession m.baseDir (if id = "" then genID else id) now)) := by
  unfold GetOrCreateSession
  by_cases hid : id = ""
  · rw [if_pos hid, createNewSession_ok]
  · rw [if_neg hid, hfind, createNewSession_ok]

/-- C5: after `CleanupSessions maxAge`, every session idle longer than
`maxAge` is marked dead, has its storage directory removed, and is absent
from the map; every other session stays in the map unchanged; and a later
`GetOrCreateSession` under a reclaimed id takes the creation path and
yields a fresh running session whose state file holds only the initial
content. -/
theorem c5_cleanup_sessions (m : Manager) (fs : FS) (now maxAge : Int)
    (hnd : (m.sessions.map Prod.fst).Nodup)
    (hlive : ∀ e ∈ m.sessions, e.2.isRunning = true) :
    (∀ e ∈ m.sessions, now - e.2.lastUsed > maxAge →
       (CleanupSessions m fs now maxAge).1.find e.1 = none ∧
       (e.1, { e.2 with isRunning := false }) ∈ (CleanupSessions m fs now maxAge).2.2 ∧
       e.2.sessionDir ∉ (CleanupSessions m fs now maxAge).2.1.dirs)
  ∧ (∀ e ∈ m.sessions, ¬ (now - e.2.lastUsed > maxAge) →
       e ∈ (CleanupSessions m fs now maxAge).1.sessions)
  ∧ (∀ e ∈ m.sessions, now - e.2.lastUsed > maxAge →
       ∀ genID now2,
         (GetOrCreateSession (CleanupSessions m fs now maxAge).1
             (CleanupSessions m fs now maxAge).2.1 e.1 genID now2 true true).2.2 =
           Except.ok (freshSession m.baseDir (if e.1 = "" then genID else e.1) now2) ∧
         (freshSession m.baseDir (if e.1 = "" then genID else e.1) now2).isRunning = true ∧
         (GetOrCreateSession (CleanupSessions m fs now maxAge).1
             (CleanupSessions m fs now maxAge).2.1 e.1 genID now2 true true).2.1.readFile
           (freshSession m.baseDir (if e.1 = "" then genID else e.1) now2).statePath =
             some initialStateContent) := by
  refine ⟨?_, ?_, ?_⟩
  · intro e hmem hexp
    refine ⟨cleanup_find_none m fs now maxAge hnd e hmem hexp, ?_, ?_⟩
    · exact cleanupLoop_reclaimed_mem now maxAge m.sessions e.1 e.2 fs
        (by simpa using hmem) hexp (hlive e hmem)
    · exact cleanupLoop_dir_removed now maxAge m.sessions e.1 e.2 fs
        (by simpa using hmem) hexp (hlive e hmem)
  · intro e hmem hkeep
    show e ∈ (cleanupLoop now maxAge m.sessions fs).1
    rw [cleanupLoop_kept]
    exact List.mem_filter.mpr ⟨hmem, decide_eq_true (by omega)⟩
  · intro e hmem hexp genID now2
    have hfind := cleanup_find_none m fs now maxAge hnd e hmem hexp
    have hbase : (CleanupSessions m fs now maxAge).1.baseDir = m.baseDir := rfl
    rw [getOrCreate_fresh _ _ _ _ _ hfind, hbase]
    refine ⟨rfl, rfl, ?_⟩
    show ((_ : FS).writeFile _ initialStateContent).readFile _ = some initialStateContent
    unfold freshSession
    exact readFile_writeFile_self _ _ _

/-- An old session fixture used by witness theorems. -/
def oldSession : Session :=
  { ID := "old", sessionDir := ["tmp", "python-sessions", "old"],
    statePath := ["tmp", "python-sessions", "old", "session_state.py"],
    lastUsed := -100, isRunning := true }

/-- A two-session registry fixture used by witness theorems. -/
def sampleManager2 : Manager :=
  { sessions := [("old", oldSession), ("sid", sampleSession)],
    baseDir := ["tmp", "python-sessions"] }

/-- Witness for C5 at a concrete two-session registry, one expired and one
fresh: the expired one vanishes from the map and is returned dead, the
fresh one survives unchanged. -/
theorem c5_witness :
    (sampleManager2.sessions.map Prod.fst).Nodup ∧
    (∀ e ∈ sampleManager2.sessions, e.2.isRunning = true) ∧
    (0 - oldSession.lastUsed > 50) ∧
    (CleanupSessions sampleManager2 sampleFS 0 50).1.find "old" = none ∧
    ("old", { oldSession with isRunning := false }) ∈
      (CleanupSessions sampleManager2 sampleFS 0 50).2.2 ∧
    ("sid", sampleSession) ∈ (CleanupSessions sampleManager2 sampleFS 0 50).1.sessions := by
  refine ⟨by decide, by decide, by decide, ?_, ?_, ?_⟩
  · exact ((c5_cleanup_sessions sampleManager2 sampleFS 0 50 (by decide) (by decide)).1
      ("old", oldSession) (by decide) (by decide)).1
  · exact ((c5_cleanup_sessions sampleManager2 sampleFS 0 50 (by decide) (by decide)).1
      ("old", oldSession) (by decide) (by decide)).2.1
  · exact (c5_cleanup_sessions sampleManager2 sampleFS 0 50 (by decide) (by decide)).2.1
      ("sid", sampleSession) (by decide) (by decide)

/-- C9 counterexample: the binding named state_file (bound to the snapshot
step's own file handle, not a module, not underscore-prefixed) is skipped
by the snapshot loop, although the claim's exception list (underscore
names and module values) does not cover it. -/
theorem c9_counterexample :
    snapshotKeeps { name := "state_file", isModule := false, rendered := some "1" } = false ∧
    specSnapshotKeeps { name := "state_file", isModule := false, rendered := some "1" } = true ∧
    renderSnapshot [{ name := "state_file", isModule := false, rendered := some "1" }] =
      "# Python session state file\n" := by
  refine ⟨by decide, by decide, by decide⟩

/-- C9 (amended): the composed script is exactly the reload prelude, the
caller's code verbatim, and the snapshot epilogue; the snapshot writes a
line for a binding exactly when its name is not underscore-prefixed, is
not the reserved name state_file, and its value is not a module, with each
rendering failure skipped individually; and a completed run fully
overwrites the state file with the rendered snapshot. -/
theorem c9_script_structure_and_filter :
    (∀ sp code, scriptContent sp code = reloadPrelude sp ++ code ++ snapshotEpilogue sp)
  ∧ (∀ b : Binding, b.rendered = none → snapshotLine b = none)
  ∧ (∀ (l1 l2 : List Binding) (b : Binding), b.rendered = none →
       renderSnapshot (l1 ++ b :: l2) = renderSnapshot (l1 ++ l2))
  ∧ (∀ (b : Binding) (r : String), b.rendered = some r →
       (snapshotLine b = some (b.name ++ " = " ++ r ++ "\n") ↔
         (pyStartsWithUnderscore b.name = false ∧ b.name ≠ "state_file" ∧
           b.isModule = false)))
  ∧ (∀ (s : Session) (fs : FS) (now : Int) (nanos : Nat) (code out : String)
       (bs : List Binding),
       s.isRunning = true → s.statePath = s.sessionDir ++ ["session_state.py"] →
       (ExecuteCode now nanos true code (UserOutcome.completes out bs)
           RunEvent.ranToCompletion s fs).2.1.readFile s.statePath =
         some (renderSnapshot bs)) := by
  refine ⟨?_, ?_, ?_, ?_, ?_⟩
  · intro sp code
    unfold scriptContent reloadPrelude snapshotEpilogue
    simp [String.append_assoc]
  · intro b h
    unfold snapshotLine
    rw [h]
    split <;> rfl
  · intro l1 l2 b h
    have hb : snapshotLine b = none := by
      unfold snapshotLine
      rw [h]
      split <;> rfl
    simp [renderSnapshot, List.filterMap_append, List.filterMap_cons, hb]
  · intro b r h
    unfold snapshotLine
    rw [h]
    have hiff : snapshotKeeps b = true ↔
        (pyStartsWithUnderscore b.name = false ∧ b.name ≠ "state_file" ∧
          b.isModule = false) := by
      unfold snapshotKeeps
      simp [Bool.and_eq_true, Bool.not_eq_true', and_assoc]
    by_cases hk : snapshotKeeps b = true
    · rw [if_pos hk]
      exact ⟨fun _ => hiff.mp hk, fun _ => rfl⟩
    · rw [if_neg hk]
      constructor
      · intro hc
        cases hc
      · intro hc
        exact absurd (hiff.mpr hc) hk
  · intro s fs now nanos code out bs hrun hwf
    have hne := statePath_ne_tempPath s nanos hwf
    unfold ExecuteCode
    simp [hrun, runComposedScript, readFile_removeFile_ne _ _ _ hne,
      readFile_writeFile_self]

/-- Witness for C9 (amended) at concrete inputs: a failing rendering is
skipped while its neighbours survive, a kept binding produces its line,
and a completed run overwrites the state file. -/
theorem c9_witness :
    renderSnapshot
        [{ name := "x", isModule := false, rendered := some "42" },
         { name := "bad", isModule := false, rendered := none },
         { name := "y", isModule := false, rendered := some "7" }] =
      renderSnapshot
        [{ name := "x", isModule := false, rendered := some "42" },
         { name := "y", isModule := false, rendered := some "7" }] ∧
    snapshotLine { name := "x", isModule := false, rendered := some "42" } =
      some ("x" ++ " = " ++ "42" ++ "\n") ∧
    (ExecuteCode 1 2 true "x = 42"
        (UserOutcome.completes "" [{ name := "x", isModule := false, rendered := some "42" }])
        RunEvent.ranToCompletion sampleSession sampleFS).2.1.readFile
      sampleSession.statePath =
      some (renderSnapshot [{ name := "x", isModule := false, rendered := some "42" }]) := by
  refine ⟨?_, ?_, ?_⟩
  · exact c9_script_structure_and_filter.2.2.1
      [{ name := "x", isModule := false, rendered := some "42" }]
      [{ name := "y", isModule := false, rendered := some "7" }]
      { name := "bad", isModule := false, rendered := none } rfl
  · exact (c9_script_structure_and_filter.2.2.2.1
      { name := "x", isModule := false, rendered := some "42" } "42" rfl).mpr
      (by decide)
  · exact c9_script_structure_and_filter.2.2.2.2 sampleSession sampleFS 1 2 "x = 42" ""
      [{ name := "x", isModule := false, rendered := some "42" }] rfl rfl

/-- A successful lookup exposes a map entry. -/
theorem find_some_mem (m : Manager) (id : String) (s : Session)
    (h : m.find id = some s) : (id, s) ∈ m.sessions := by
  unfold Manager.find at h
  cases hf : m.sessions.find? (fun e => e.1 = id) with
  | none => rw [hf] at h; cases h
  | some e =>
    rw [hf] at h
    have hmem := List.mem_of_find?_eq_some hf
    have hkey := List.find?_some hf
    simp only [decide_eq_true_eq] at hkey
    simp only [Option.map_some', Option.some.injEq] at h
    have heq : (id, s) = e := by
      rcases e with ⟨e1, e2⟩
      cases hkey
      cases h
      rfl
    rw [heq]
    exact hmem

/-- Inserting into a map with nodup keys keeps the keys nodup. -/
theorem insert_keys_nodup (m : Manager) (id : String) (s : Session)
    (h : (m.sessions.map Prod.fst).Nodup) :
    ((m.insert id s).sessions.map Prod.fst).Nodup := by
  unfold Manager.insert
  simp only [List.map_cons, List.nodup_cons]
  constructor
  · intro hmem
    rcases List.mem_map.mp hmem with ⟨e, he, hk⟩
    have := (List.mem_filter.mp he).2
    simp only [decide_eq_true_eq] at this
    exact this hk
  · exact h.sublist (List.Sublist.map Prod.fst (List.filter_sublist _))

/-- Updating the session a key points to does not change the key list. -/
theorem updateAt_keys (m : Manager) (id : String) (s : Session) :
    (m.updateAt id s).sessions.map Prod.fst = m.sessions.map Prod.fst := by
  unfold Manager.updateAt
  rw [List.map_map]
  apply List.map_congr_left
  intro e _
  by_cases hk : e.1 = id
  · simp [hk]
  · simp [hk]

/-- Paths below distinct children of a common base differ. -/
theorem base_pair_ne (base : List String) (a b x y : String) (h : a ≠ b) :
    base ++ [a] ++ [x] ≠ base ++ [b] ++ [y] := by
  intro hc
  rw [List.append_assoc, List.append_assoc] at hc
  have h2 := List.append_cancel_left hc
  simp at h2
  exact h h2.1

/-- A call on a live session returns the same struct with only the
last-used timestamp advanced. -/
theorem executeCode_session (now : Int) (nanos : Nat) (swOk : Bool) (code : String)
    (user : UserOutcome) (ev : RunEvent) (s : Session) (fs : FS)
    (hrun : s.isRunning = true) :
    (ExecuteCode now nanos swOk code user ev s fs).1 = { s with lastUsed := now } := by
  unfold ExecuteCode
  by_cases h2 : swOk = false
  · simp [hrun, h2]
  · cases hns : (runComposedScript user ev).newState <;>
      by_cases h3 : (runComposedScript user ev).timedOut = true <;>
      simp [hrun, h2, hns, h3]

/-- A call keeps the session state file present (possibly overwritten). -/
theorem executeCode_readFile_state (now : Int) (nanos : Nat) (swOk : Bool)
    (code : String) (user : UserOutcome) (ev : RunEvent) (s : Session) (fs : FS)
    (hne : s.statePath ≠ s.sessionDir ++ [execTempName nanos])
    (hsome : (fs.readFile s.statePath).isSome = true) :
    ((ExecuteCode now nanos swOk code user ev s fs).2.1.readFile s.statePath).isSome = true := by
  unfold ExecuteCode
  by_cases h1 : s.isRunning = false
  · simpa [h1] using hsome
  · by_cases h2 : swOk = false
    · simpa [h1, h2] using hsome
    · cases hns : (runComposedScript user ev).newState with
      | none =>
        by_cases h3 : (runComposedScript user ev).timedOut = true <;>
          simpa [h1, h2, hns, h3, readFile_write_remove_other _ _ _ _ hne] using hsome
      | some cont =>
        by_cases h3 : (runComposedScript user ev).timedOut = true <;>
          simp [h1, h2, hns, h3, readFile_removeFile_ne _ _ _ hne, readFile_writeFile_self]

/-- The sweep keeps every directory that sits under no expired entry's
directory. -/
theorem cleanupLoop_dirs_preserved (now maxAge : Int) (l : List (String × Session)) :
    ∀ fs d, d ∈ fs.dirs →
      (∀ e ∈ l, now - e.2.lastUsed > maxAge → e.2.sessionDir.isPrefixOf d = false) →
      d ∈ (cleanupLoop now maxAge l fs).2.1.dirs := by
  induction l with
  | nil => intro fs d hd _; exact hd
  | cons e t ih =>
    intro fs d hd hp
    rcases e with ⟨id, s⟩
    by_cases hexp : now - s.lastUsed > maxAge
    · simp only [cleanupLoop, hexp, if_pos]
      apply ih (s.Cleanup fs).2 d _ (fun f hf => hp f (List.mem_cons_of_mem _ hf))
      unfold Session.Cleanup
      by_cases hrun : s.isRunning = true
      · rw [if_pos hrun]
        exact mem_dirs_removeAll fs _ d hd (hp (id, s) (List.mem_cons_self _ _) hexp)
      · rw [if_neg hrun]
        exact hd
    · simp only [cleanupLoop, hexp]
      simpa using ih fs d hd (fun f hf => hp f (List.mem_cons_of_mem _ hf))

/-- Well-formedness of one registered session: consistent id and paths,
alive, with its storage directory and state file already existing. -/
def SessionWF (base : FilePath') (fs : FS) (id : String) (s : Session) : Prop :=
  s.ID = id ∧ s.sessionDir = base ++ [id] ∧
  s.statePath = base ++ [id] ++ ["session_state.py"] ∧
  s.isRunning = true ∧ s.sessionDir ∈ fs.dirs ∧
  (fs.readFile s.statePath).isSome = true

/-- The registry invariant of claim C7: nodup keys, and every entry in the
map is a live, fully initialised session. -/
def RegistryInv (c : Config) : Prop :=
  (c.mgr.sessions.map Prod.fst).Nodup ∧
  ∀ e ∈ c.mgr.sessions, SessionWF c.mgr.baseDir c.fs e.1 e.2

/-- Creation preserves the registry invariant. -/
theorem inv_createNewSession (c : Config) (id genID : String) (now : Int)
    (mk wr : Bool) (h : RegistryInv c) :
    RegistryInv { mgr := (createNewSession c.mgr c.fs id genID now mk wr).1,
                  fs := (createNewSession c.mgr c.fs id genID now mk wr).2.1 } := by
  unfold createNewSession
  by_cases hmk : mk = false
  · simpa [hmk] using h
  · by_cases hwr : wr = false
    · simp only [hmk, hwr, Bool.true_eq_false, Bool.false_eq_true, if_false, if_true,
        eq_self_iff_true]
      refine ⟨h.1, ?_⟩
      intro e he
      have hw := h.2 e he
      unfold SessionWF at hw ⊢
      unfold FS.mkdirAll
      exact ⟨hw.1, hw.2.1, hw.2.2.1, hw.2.2.2.1,
        List.mem_cons_of_mem _ hw.2.2.2.2.1, hw.2.2.2.2.2⟩
    · simp only [hmk, hwr, Bool.true_eq_false, Bool.false_eq_true, if_false]
      constructor
      · exact insert_keys_nodup c.mgr _ _ h.1
      · intro e he
        unfold Manager.insert at he
        rcases List.mem_cons.mp he with he1 | he2
        · rw [he1]
          refine ⟨rfl, rfl, rfl, rfl, ?_, ?_⟩
          · rw [dirs_writeFile]
            exact List.mem_cons_self _ _
          · rw [readFile_writeFile_self]
            rfl
        · have hmem := (List.mem_filter.mp he2).1
          have hkey := (List.mem_filter.mp he2).2
          simp only [decide_eq_true_eq] at hkey
          have hw := h.2 e hmem
          unfold SessionWF at hw ⊢
          refine ⟨hw.1, hw.2.1, hw.2.2.1, hw.2.2.2.1, ?_, ?_⟩
          · rw [dirs_writeFile]
            exact List.mem_cons_of_mem _ hw.2.2.2.2.1
          · rw [hw.2.2.1, readFile_writeFile_ne _ _ _ _
              (base_pair_ne c.mgr.baseDir e.1 (if id = "" then genID else id)
                "session_state.py" "session_state.py" hkey),
              readFile_mkdirAll]
            rw [← hw.2.2.1]
            exact hw.2.2.2.2.2

/-- `GetOrCreateSession` preserves the registry invariant. -/
theorem inv_stepGetOrCreate (c : Config) (id genID : String) (now : Int)
    (mk wr : Bool) (h : RegistryInv c) :
    RegistryInv (stepGetOrCreate c id genID now mk wr) := by
  unfold stepGetOrCreate GetOrCreateSession
  by_cases hid : id = ""
  · simp only [hid, if_pos]
    exact inv_createNewSession c "" genID now mk wr h
  · rw [if_neg hid]
    cases hfind : c.mgr.find id with
    | none => exact inv_createNewSession c id genID now mk wr h
    | some s =>
      by_cases hrun : s.isRunning = true
      · simpa [hrun] using h
      · simp only [hrun, Bool.false_eq_true, if_false]
        exact inv_createNewSession c id genID now mk wr h

/-- `ExecuteCode` on a registered session preserves the registry
invariant. -/
theorem inv_stepExecute (c : Config) (id : String) (s : Session) (now : Int)
    (nanos : Nat) (swOk : Bool) (code : String) (user : UserOutcome) (ev : RunEvent)
    (h : RegistryInv c) (hf : c.mgr.find id = some s) :
    RegistryInv (stepExecute c id s now nanos swOk code user ev) := by
  have hmem := find_some_mem c.mgr id s hf
  have hwfs := h.2 (id, s) hmem
  unfold SessionWF at hwfs
  have hrun : s.isRunning = true := hwfs.2.2.2.1
  have hneq : s.statePath ≠ s.sessionDir ++ [execTempName nanos] := by
    rw [hwfs.2.2.1, hwfs.2.1]
    rw [List.append_assoc, List.append_assoc]
    intro hc
    have h2 := List.append_cancel_left hc
    simp at h2
    exact execTempName_ne nanos h2.symm
  constructor
  · rw [show (stepExecute c id s now nanos swOk code user ev).mgr =
        c.mgr.updateAt id (ExecuteCode now nanos swOk code user ev s c.fs).1 from rfl]
    rw [updateAt_keys]
    exact h.1
  · intro e he
    have hbase : (stepExecute c id s now nanos swOk code user ev).mgr.baseDir =
        c.mgr.baseDir := rfl
    rw [hbase]
    have hfs : (stepExecute c id s now nanos swOk code user ev).fs =
        (ExecuteCode now nanos swOk code user ev s c.fs).2.1 := rfl
    rw [hfs]
    have he2 : e ∈ (c.mgr.updateAt id (ExecuteCode now nanos swOk code user ev s c.fs).1).sessions := he
    unfold Manager.updateAt at he2
    rcases List.mem_map.mp he2 with ⟨f, hfmem, hfe⟩
    have hwff := h.2 f hfmem
    unfold SessionWF at hwff
    by_cases hk : f.1 = id
    · have hfs2 : f = (id, s) := eq_of_keys_nodup c.mgr.sessions h.1 hfmem hmem hk
      rw [if_pos hk] at hfe
      rw [← hfe]
      rw [executeCode_session now nanos swOk code user ev s c.fs hrun]
      refine ⟨hwfs.1, hwfs.2.1, hwfs.2.2.1, hwfs.2.2.2.1, ?_, ?_⟩
      · rw [executeCode_dirs]
        exact hwfs.2.2.2.2.1
      · exact executeCode_readFile_state now nanos swOk code user ev s c.fs hneq
          hwfs.2.2.2.2.2
    · rw [if_neg hk] at hfe
      rw [← hfe]
      have hO1 : f.2.statePath ≠ s.sessionDir ++ [execTempName nanos] := by
        rw [hwff.2.2.1, hwfs.2.1]
        exact base_pair_ne c.mgr.baseDir f.1 id "session_state.py"
          (execTempName nanos) hk
      have hO2 : f.2.statePath ≠ s.statePath := by
        rw [hwff.2.2.1, hwfs.2.2.1]
        exact base_pair_ne c.mgr.baseDir f.1 id "session_state.py"
          "session_state.py" hk
      refine ⟨hwff.1, hwff.2.1, hwff.2.2.1, hwff.2.2.2.1, ?_, ?_⟩
      · rw [executeCode_dirs]
        exact hwff.2.2.2.2.1
      · rw [executeCode_readFile_other now nanos swOk code user ev s c.fs
          f.2.statePath hO1 hO2]
        exact hwff.2.2.2.2.2

/-- The idle sweep preserves the registry invariant. -/
theorem inv_stepSweep (c : Config) (now maxAge : Int) (h : RegistryInv c) :
    RegistryInv (stepSweep c now maxAge) := by
  constructor
  · have hkept : (stepSweep c now maxAge).mgr.sessions =
        c.mgr.sessions.filter (fun e => decide (now - e.2.lastUsed ≤ maxAge)) := by
      show (cleanupLoop now maxAge c.mgr.sessions c.fs).1 = _
      rw [cleanupLoop_kept]
    rw [hkept]
    exact h.1.sublist (List.Sublist.map Prod.fst (List.filter_sublist _))
  · intro e he
    have he2 : e ∈ (cleanupLoop now maxAge c.mgr.sessions c.fs).1 := he
    rw [cleanupLoop_kept] at he2
    have hmem := (List.mem_filter.mp he2).1
    have hkeep := of_decide_eq_true (List.mem_filter.mp he2).2
    have hwfe := h.2 e hmem
    unfold SessionWF at hwfe
    have hdisj : ∀ f ∈ c.mgr.sessions, now - f.2.lastUsed > maxAge →
        f.1 ≠ e.1 := by
      intro f hfmem hfexp hfk
      have : f = e := eq_of_keys_nodup c.mgr.sessions h.1 hfmem hmem hfk
      rw [this] at hfexp
      omega
    have hbase : (stepSweep c now maxAge).mgr.baseDir = c.mgr.baseDir := rfl
    have hfs : (stepSweep c now maxAge).fs =
        (cleanupLoop now maxAge c.mgr.sessions c.fs).2.1 := rfl
    rw [hbase, hfs]
    refine ⟨hwfe.1, hwfe.2.1, hwfe.2.2.1, hwfe.2.2.2.1, ?_, ?_⟩
    · apply cleanupLoop_dirs_preserved now maxAge c.mgr.sessions c.fs _
        hwfe.2.2.2.2.1
      intro f hfmem hfexp
      have hwfF := h.2 f hfmem
      unfold SessionWF at hwfF
      rw [hwfF.2.1, hwfe.2.1]
      rw [show c.mgr.baseDir ++ [e.1] = c.mgr.baseDir ++ e.1 :: [] from rfl]
      rw [isPrefixOf_base_single]
      exact beq_eq_false_iff_ne.mpr (hdisj f hfmem hfexp)
    · rw [cleanupLoop_readFile now maxAge c.mgr.sessions c.fs e.2.statePath ?_]
      · exact hwfe.2.2.2.2.2
      · intro f hfmem hfexp
        have hwfF := h.2 f hfmem
        unfold SessionWF at hwfF
        rw [hwfF.2.1, hwfe.2.2.1]
        rw [List.append_assoc]
        rw [show ([e.1] ++ ["session_state.py"] : List String) =
          e.1 :: ["session_state.py"] from rfl]
        rw [isPrefixOf_base_single]
        exact beq_eq_false_iff_ne.mpr (hdisj f hfmem hfexp)

/-- C7 counterexample: a direct per-session `Cleanup` (one of the
operations the claim covers) leaves a dead session visible in the map —
reachable in two steps from a fresh registry. -/
theorem c7_counterexample :
    ∃ c : Config, Relation.ReflTransGen Step (initConfig "tmp" { dirs := [], files := [] }) c ∧
      ∃ id s, c.mgr.find id = some s ∧ s.isRunning = false := by
  have h1 : (stepGetOrCreate (initConfig "tmp" { dirs := [], files := [] })
      "" "g1" 0 true true).mgr.find "g1" =
      some (freshSession ["tmp", "python-sessions"] "g1" 0) := by decide
  refine ⟨_, Relation.ReflTransGen.head
      (Step.core _ _ (CoreStep.getOrCreate _ "" "g1" 0 true true))
      (Relation.ReflTransGen.single (Step.directCleanup _ "g1" _ h1)), "g1",
    { freshSession ["tmp", "python-sessions"] "g1" 0 with isRunning := false }, ?_, rfl⟩
  decide

/-- C7 (amended): along every run made of session creation, code
execution, and idle sweeps, every id in the map refers to a live, fully
initialised session (storage directory and state file created before the
entry became visible); a direct per-session `Cleanup` is the sole
exception, marking the struct dead without deleting the map entry. -/
theorem c7_registry_invariant (tempDir : String) (fs0 : FS) (c : Config)
    (h : Relation.ReflTransGen CoreStep (initConfig tempDir fs0) c) :
    RegistryInv c := by
  induction h with
  | refl =>
    constructor
    · exact List.nodup_nil
    · intro e he
      cases he
  | tail hsteps hstep ih =>
    cases hstep with
    | getOrCreate id genID now mk wr =>
      exact inv_stepGetOrCreate _ id genID now mk wr ih
    | execute id s now nanos swOk code user ev hf =>
      exact inv_stepExecute _ id s now nanos swOk code user ev ih hf
    | sweep now maxAge =>
      exact inv_stepSweep _ now maxAge ih

/-- Witness for C7 (amended): the invariant holds at the concrete registry
reached by one creation step. -/
theorem c7_witness :
    RegistryInv (stepGetOrCreate (initConfig "tmp" { dirs := [], files := [] })
      "" "g1" 0 true true) :=
  c7_registry_invariant "tmp" { dirs := [], files := [] } _
    (Relation.ReflTransGen.single
      (CoreStep.getOrCreate (initConfig "tmp" { dirs := [], files := [] })
        "" "g1" 0 true true))
